import Mathlib

/-!
Verification of the Captum distributed-attribution tutorial notebook
(`tutorials/Distributed_Attribution.ipynb`).

The notebook contains two example flows:

* Part 1: a 4x3 input batch is split with `torch.Tensor.chunk` across
  `WORLD_SIZE` processes; each process computes
  `IntegratedGradients.attribute(chunk, target=0)` for a `ToyModel`; rank 0
  gathers all per-rank attributions into a preallocated list of zero tensors
  and prints their concatenation.

* Part 2: the Titanic test set is partitioned with `DistributedSampler`;
  each process sums per-example attributions over its partition, divides by
  the partition length, the results are summed onto rank 0 with
  `torch.distributed.reduce`, and rank 0 divides by the world size and
  prints the average.

Numeric tensors are embedded as lists of rationals.  The external library
functionality (IntegratedGradients, the gather/reduce collectives,
DistributedSampler) is not part of this repository; where claims depend on
it, those parts are modelled from the spec, with the modelling recorded in
the doc comment of the corresponding definition.
-/

set_option autoImplicit false

universe u

/-- ReLU on rationals: `relu x = max 0 x`. -/
def relu (x : ℚ) : ℚ := max 0 x

/-- Dot product of two feature rows, embedding the row-times-vector step of
`nn.Linear`. -/
def dotL (w x : List ℚ) : ℚ := (List.zipWith (fun a b => a * b) w x).sum

/-- `nn.Linear` forward: one output per weight row, `w . x + b`. -/
def linear_forward (W : List (List ℚ)) (b : List ℚ) (x : List ℚ) : List ℚ :=
  List.zipWith (fun wrow bi => dotL wrow x + bi) W b

/-- Weight of `ToyModel.linear1`, set in the notebook to `torch.ones(4, 3)`. -/
def toy_weight : List (List ℚ) :=
  List.replicate 4 (List.replicate 3 1)

/-- Bias of `ToyModel.linear1`, set in the notebook to
`torch.tensor([-10.0, 1.0, 1.0, 1.0])`. -/
def toy_bias : List ℚ := [-10, 1, 1, 1]

/-- `ToyModel.forward`: `self.relu(self.linear1(x))` with the hard-coded
weight `toy_weight` and bias `toy_bias`. -/
def toyModel_forward (x : List ℚ) : List ℚ :=
  (linear_forward toy_weight toy_bias x).map relu

/-- Auxiliary worker for `chunksOf`: accumulate `k`-element chunks.
`cur` is the reversed current chunk, `n` its length. -/
def chunksOfAux {α : Type u} (k : ℕ) : List α → ℕ → List α → List (List α)
  | cur, _, [] => if cur.isEmpty then [] else [cur.reverse]
  | cur, n, x :: xs =>
    if n + 1 = k then (x :: cur).reverse :: chunksOfAux k [] 0 xs
    else chunksOfAux k (x :: cur) (n + 1) xs

/-- Split a list into consecutive chunks of `k` elements (last chunk may be
shorter).  This is the splitting primitive behind both `torch.chunk` and
`reshape` along the leading dimension. -/
def chunksOf {α : Type u} (k : ℕ) (l : List α) : List (List α) :=
  if k = 0 then [] else chunksOfAux k [] 0 l

/-- `torch.Tensor.chunk n` along dimension 0: every chunk has
`ceil (length / n)` rows, and fewer than `n` chunks may be returned when the
length is not divisible by `n`. -/
def tchunk {α : Type u} (n : ℕ) (l : List α) : List (List α) :=
  chunksOf ((l.length + n - 1) / n) l

/-- `torch.cat` along dimension 0 of a list of row-batches. -/
def tcat {α : Type u} (ts : List (List α)) : List α := ts.flatten

/-- `torch.arange n` as a list of rationals. -/
def tarange (n : ℕ) : List ℚ := (List.range n).map (fun i => (i : ℚ))

/-- The Part-1 example input, `1.0 * torch.arange(12).reshape(4, 3)`:
the 4x3 tensor of values 0..11. -/
def example_batch : List (List ℚ) :=
  (chunksOf 3 (tarange 12)).map (fun r => r.map (fun x => 1 * x))

/-- Modelled from the spec: `IntegratedGradients.attribute` is an external
black-box attribution algorithm (the spec treats Integrated Gradients as "an
external feature-attribution algorithm used as a black box").  For a fixed
model and target, its per-example attributions depend only on the example
itself, so `attribute` on a batch is modelled as mapping an arbitrary
per-example attribution function `attrRow` over the batch rows. -/
def ig_attribute (attrRow : List ℚ → List ℚ) (batch : List (List ℚ)) :
    List (List ℚ) :=
  batch.map attrRow

/-- `torch.zeros_like` of a 2-d tensor. -/
def zeros_like (t : List (List ℚ)) : List (List ℚ) :=
  t.map (fun r => r.map (fun _ => 0))

/-- Modelled from the spec: the gather collective of the external
communication backend delivers rank `i`'s tensor into slot `i` of the
destination's `gather_list`, overwriting the preallocated contents; the
list's length is the world size. -/
def dist_gather (contrib : ℕ → List (List ℚ))
    (gather_list : List (List (List ℚ))) : List (List (List ℚ)) :=
  (List.range gather_list.length).map contrib

/-- `batch_chunks` of the Part-1 launcher cell: `batch.chunk(size)`. -/
def batch_chunks (size : ℕ) (batch : List (List ℚ)) : List (List (List ℚ)) :=
  tchunk size batch

/-- The attribution computed by `run` (Part 1) on the process with the given
rank: `ig.attribute(inp_batch, target=0)` where `inp_batch` is
`batch_chunks[rank]`. -/
def run1_attr (attrRow : List ℚ → List ℚ) (size : ℕ) (batch : List (List ℚ))
    (rank : ℕ) : List (List ℚ) :=
  ig_attribute attrRow ((batch_chunks size batch).getD rank [])

/-- `output_list` allocated by rank 0 in `run` (Part 1):
`[torch.zeros_like(attr) for _ in range(size)]`. -/
def run1_output_list (attrRow : List ℚ → List ℚ) (size : ℕ)
    (batch : List (List ℚ)) : List (List (List ℚ)) :=
  List.replicate size (zeros_like (run1_attr attrRow size batch 0))

/-- `combined_attr` computed by rank 0 in `run` (Part 1):
`torch.cat(output_list)` after the gather. -/
def run1_combined (attrRow : List ℚ → List ℚ) (size : ℕ)
    (batch : List (List ℚ)) : List (List ℚ) :=
  tcat (dist_gather (run1_attr attrRow size batch)
    (run1_output_list attrRow size batch))

/-- What `run` (Part 1) prints on a given rank: rank 0 prints
`combined_attr`, every other rank prints nothing. -/
def run1_printed (attrRow : List ℚ → List ℚ) (size : ℕ)
    (batch : List (List ℚ)) (rank : ℕ) : Option (List (List ℚ)) :=
  if rank = 0 then some (run1_combined attrRow size batch) else none

/-- The single-process comparison cell: `ig.attribute(batch, target=0)` on
the whole batch. -/
def single_process_attr (attrRow : List ℚ → List ℚ)
    (batch : List (List ℚ)) : List (List ℚ) :=
  ig_attribute attrRow batch

/-- Number of samples each rank receives from `DistributedSampler` over a
dataset of `N` examples with `size` replicas: `ceil (N / size)`. -/
def sampler_len (N size : ℕ) : ℕ := (N + size - 1) / size

/-- Modelled from the spec: `DistributedSampler(dataset, num_replicas=size,
rank=rank, shuffle=False)` is external library functionality; per the
notebook it "repeats examples to ensure that each partition has the same
number of examples".  With shuffling off it pads the index list `0..N-1`
cyclically to `sampler_len N size * size` entries and gives rank `r` the
entries at positions `r, r + size, r + 2*size, ...`, i.e. the dataset
indices `(r + j*size) % N` for `j < sampler_len N size`. -/
def sampler_indices (N size rank : ℕ) : List ℕ :=
  (List.range (sampler_len N size)).map (fun j => (rank + j * size) % N)

/-- `total_attr` computed by `run` (Part 2) on one rank, per attribution
component: the sum over the rank's sampled examples of the per-example
attribution (the `DataLoader` batches of 50 only group this summation),
divided by `len(sampler)`.  `attrOf i` is the attribution component of
dataset example `i`, abstract because the model and Integrated Gradients
are external. -/
def run2_total_attr (attrOf : ℕ → ℚ) (N size rank : ℕ) : ℚ :=
  ((sampler_indices N size rank).map attrOf).sum / (sampler_len N size : ℚ)

/-- Modelled from the spec: `torch.distributed.reduce(t, dst=0)` of the
external backend sums every rank's tensor onto the destination rank. -/
def dist_reduce (contrib : ℕ → ℚ) (size : ℕ) : ℚ :=
  ((List.range size).map contrib).sum

/-- The value printed by rank 0 in `run` (Part 2), per attribution
component: the reduced sum of per-rank averages, divided by `size`. -/
def run2_printed_val (attrOf : ℕ → ℚ) (N size : ℕ) : ℚ :=
  dist_reduce (run2_total_attr attrOf N size) size / (size : ℚ)

/-- What `run` (Part 2) prints on a given rank: rank 0 prints the averaged
attribution, every other rank prints nothing. -/
def run2_printed (attrOf : ℕ → ℚ) (N size rank : ℕ) : Option ℚ :=
  if rank = 0 then some (run2_printed_val attrOf N size) else none

/-- The observable effects performed by the notebook's functions: setting an
environment variable, initializing and destroying the process group, reading
a file from disk, participating in the gather or reduce collectives, and
printing. -/
inductive Effect where
  | setEnv : String → String → Effect
  | initProcessGroup : String → ℕ → ℕ → Effect
  | destroyProcessGroup : Effect
  | readFile : String → Effect
  | gatherRoot : Effect
  | gatherSend : ℕ → Effect
  | reduceTo : ℕ → Effect
  | printOut : String → Effect
  deriving DecidableEq, Repr

/-- The environment-variable writes occurring in a trace, in order. -/
def envWrites (t : List Effect) : List (String × String) :=
  t.filterMap (fun e => match e with
    | Effect.setEnv n v => some (n, v)
    | _ => none)

/-- The file paths read in a trace, in order. -/
def fileReads (t : List Effect) : List String :=
  t.filterMap (fun e => match e with
    | Effect.readFile p => some p
    | _ => none)

/-- The print statements occurring in a trace, in order. -/
def printOuts (t : List Effect) : List String :=
  t.filterMap (fun e => match e with
    | Effect.printOut s => some s
    | _ => none)

/-- Effect trace of `run` (Part 1): model construction and the attribution
computation are pure; rank 0 participates in the gather as the root and
prints `combined_attr`, every other rank only sends its attribution. -/
def run1_trace (rank : ℕ) : List Effect :=
  if rank = 0 then [Effect.gatherRoot, Effect.printOut "combined_attr"]
  else [Effect.gatherSend rank]

/-- `dataset_path` as assigned in the notebook. -/
def dataset_path : String := "titanic3.csv"

/-- Effect trace of `run` (Part 2): `load_dataset` reads the CSV at
`dataset_path`, `torch.load` reads the serialized model, every rank
contributes to the reduce with destination 0, and only rank 0 prints. -/
def run2_trace (rank : ℕ) : List Effect :=
  [Effect.readFile dataset_path,
   Effect.readFile "models/titanic_model.pt",
   Effect.reduceTo 0] ++
  (if rank = 0 then [Effect.printOut "Average Attributions"] else [])

/-- The effects `init_process` performs before calling `fn` (identical in
both flows): set `MASTER_ADDR` and `MASTER_PORT`, then
`dist.init_process_group('gloo', rank, size)`. -/
def init_process_effects (rank size : ℕ) : List Effect :=
  [Effect.setEnv "MASTER_ADDR" "127.0.0.1",
   Effect.setEnv "MASTER_PORT" "29500",
   Effect.initProcessGroup "gloo" rank size]

/-- `init_process`, with the behavior of `fn(rank, size, ...)` given as the
trace of effects it performs together with an optional uncaught exception.
The body `init -> fn -> destroy` is a plain statement sequence with no
`try`/`except`: when `fn` returns normally `destroy_process_group` runs and
the call succeeds; when `fn` raises, the exception propagates unchanged and
`destroy_process_group` is never executed. -/
def init_process_run (rank size : ℕ) (fn : List Effect × Option String) :
    List Effect × Option String :=
  match fn with
  | (t, none) =>
      (init_process_effects rank size ++ t ++ [Effect.destroyProcessGroup],
       none)
  | (t, some e) => (init_process_effects rank size ++ t, some e)

/-- The Part-1 launcher loop: for each rank in `range size` it builds the
argument tuple `(rank, size, run, batch_chunks[rank])` and spawns a process;
the Python indexing `batch_chunks[rank]` raises `IndexError` when
`batch.chunk(size)` returned fewer than `size` chunks, in which case the
loop dies before spawning the remaining processes. -/
def part1_spawn (size : ℕ) (batch : List (List ℚ)) :
    Except String (List (ℕ × List (List ℚ))) :=
  (List.range size).mapM (fun rank =>
    match (batch_chunks size batch).get? rank with
    | some c => Except.ok (rank, c)
    | none => Except.error "IndexError")

/-- The Part-1 join loop: joins every process the spawn loop produced. -/
def part1_joined (size : ℕ) (batch : List (List ℚ)) :
    Except String (List ℕ) :=
  (part1_spawn size batch).map (fun ps => ps.map Prod.fst)

/-- The Part-2 launcher loop: spawns one process per rank in `range size`
(no chunk indexing, so it cannot fail). -/
def part2_spawn (size : ℕ) : List ℕ := List.range size

/-- The Part-2 join loop: joins every spawned process. -/
def part2_joined (size : ℕ) : List ℕ := part2_spawn size

/-- Dividing each list entry by a constant and summing is the same as
summing and then dividing. -/
theorem sum_map_div {α : Type u} (l : List α) (g : α → ℚ) (c : ℚ) :
    (l.map (fun a => g a / c)).sum = (l.map g).sum / c := by
  induction l with
  | nil => simp
  | cons x xs ih => simp [add_div, ih]

/-- Claim C1: for the example 4x3 batch of values 0..11, the distributed
Part-1 pipeline (chunk the batch into `size` pieces, attribute each chunk
independently, gather on rank 0 and concatenate in rank order) produces the
same attribution tensor as attributing the whole batch in a single process,
for every admissible world size and every per-example attribution
function. -/
theorem part1_distributed_matches_single (attrRow : List ℚ → List ℚ)
    (size : ℕ) (h : size = 1 ∨ size = 2 ∨ size = 4) :
    run1_combined attrRow size example_batch =
      single_process_attr attrRow example_batch := by
  rcases h with h | h | h <;> subst h <;> rfl

/-- Witness for `part1_distributed_matches_single` at `size = 2` with the
identity per-example attribution. -/
theorem part1_distributed_matches_single_witness :
    ((2 : ℕ) = 1 ∨ (2 : ℕ) = 2 ∨ (2 : ℕ) = 4) ∧
    run1_combined (fun r => r) 2 example_batch =
      single_process_attr (fun r => r) example_batch :=
  ⟨by decide, part1_distributed_matches_single (fun r => r) 2 (by decide)⟩

/-- Claim C2: in the Part-1 flow, rank 0 allocates a list of exactly `size`
zero tensors shaped like the local attribution, the gather fills it with
every rank's attribution, and rank 0 prints the concatenation in rank
order 0..size-1 which has as many rows as the original batch; every other
rank only sends its attribution. -/
theorem run1_gather_aggregation (attrRow : List ℚ → List ℚ) (size : ℕ)
    (h : size = 1 ∨ size = 2 ∨ size = 4) :
    (run1_output_list attrRow size example_batch).length = size ∧
    (∀ t ∈ run1_output_list attrRow size example_batch,
      t = zeros_like (run1_attr attrRow size example_batch 0)) ∧
    run1_printed attrRow size example_batch 0 =
      some (tcat ((List.range size).map
        (run1_attr attrRow size example_batch))) ∧
    (run1_combined attrRow size example_batch).length =
      example_batch.length ∧
    (∀ rank, rank ≠ 0 → run1_trace rank = [Effect.gatherSend rank]) := by
  refine ⟨?_, ?_, ?_, ?_, ?_⟩
  · rcases h with h | h | h <;> subst h <;> rfl
  · intro t ht
    exact List.eq_of_mem_replicate ht
  · rcases h with h | h | h <;> subst h <;> rfl
  · rcases h with h | h | h <;> subst h <;> rfl
  · intro rank hrank
    simp [run1_trace, hrank]

/-- Witness for `run1_gather_aggregation` at `size = 4` with the identity
per-example attribution, checking the non-root branch at rank 3. -/
theorem run1_gather_aggregation_witness :
    ((4 : ℕ) = 1 ∨ (4 : ℕ) = 2 ∨ (4 : ℕ) = 4) ∧
    ((3 : ℕ) ≠ 0) ∧
    (run1_output_list (fun r => r) 4 example_batch).length = 4 ∧
    run1_trace 3 = [Effect.gatherSend 3] :=
  ⟨by decide, by decide,
   (run1_gather_aggregation (fun r => r) 4 (by decide)).1,
   (run1_gather_aggregation (fun r => r) 4 (by decide)).2.2.2.2 3 (by decide)⟩

/-- Claim C3: the value printed on rank 0 in Part 2 is `(1/size)` times the
sum over ranks of the rank's attribution sum divided by its sampler length;
every rank's partition has the same length `sampler_len N size` (positive
when the dataset is nonempty), and the printed value equals the mean over
all `size * sampler_len N size` sampled examples, repeats included. -/
theorem run2_average (attrOf : ℕ → ℚ) (N size : ℕ) (hN : 0 < N)
    (hs : 0 < size) :
    (∀ r, (sampler_indices N size r).length = sampler_len N size) ∧
    0 < sampler_len N size ∧
    run2_printed_val attrOf N size =
      ((List.range size).map (fun r =>
        ((sampler_indices N size r).map attrOf).sum /
          (sampler_len N size : ℚ))).sum / (size : ℚ) ∧
    run2_printed_val attrOf N size =
      ((List.range size).map (fun r =>
        ((sampler_indices N size r).map attrOf).sum)).sum /
        ((size * sampler_len N size : ℕ) : ℚ) := by
  refine ⟨?_, ?_, rfl, ?_⟩
  · intro r
    simp [sampler_indices]
  · have h1 : size ≤ N + size - 1 := by omega
    exact (Nat.one_le_div_iff hs).mpr h1
  · show dist_reduce (run2_total_attr attrOf N size) size / (size : ℚ) = _
    unfold dist_reduce run2_total_attr
    rw [sum_map_div (List.range size)
      (fun r => ((sampler_indices N size r).map attrOf).sum)
      ((sampler_len N size : ℚ))]
    push_cast
    rw [div_div, mul_comm]

/-- Witness for `run2_average` on a 5-example dataset with 2 ranks and the
cast per-example attribution. -/
theorem run2_average_witness :
    0 < 5 ∧ 0 < 2 ∧
    ((∀ r, (sampler_indices 5 2 r).length = sampler_len 5 2) ∧
     0 < sampler_len 5 2 ∧
     run2_printed_val (fun i => (i : ℚ)) 5 2 =
       ((List.range 2).map (fun r =>
         ((sampler_indices 5 2 r).map (fun i => (i : ℚ))).sum /
           (sampler_len 5 2 : ℚ))).sum / (2 : ℚ) ∧
     run2_printed_val (fun i => (i : ℚ)) 5 2 =
       ((List.range 2).map (fun r =>
         ((sampler_indices 5 2 r).map (fun i => (i : ℚ))).sum)).sum /
         ((2 * sampler_len 5 2 : ℕ) : ℚ)) :=
  ⟨by decide, by decide, run2_average (fun i => (i : ℚ)) 5 2 (by decide) (by decide)⟩

/-- Claim C4: in both flows `init_process` writes exactly the two
environment variables `MASTER_ADDR = 127.0.0.1` and `MASTER_PORT = 29500`,
identically on every rank; the Part-1 process reads no file, and the Part-2
process reads exactly the CSV dataset path and the serialized model path. -/
theorem env_and_file_surface (rank size : ℕ) :
    envWrites (init_process_run rank size (run1_trace rank, none)).1 =
      [("MASTER_ADDR", "127.0.0.1"), ("MASTER_PORT", "29500")] ∧
    envWrites (init_process_run rank size (run2_trace rank, none)).1 =
      [("MASTER_ADDR", "127.0.0.1"), ("MASTER_PORT", "29500")] ∧
    fileReads (init_process_run rank size (run1_trace rank, none)).1 = [] ∧
    fileReads (init_process_run rank size (run2_trace rank, none)).1 =
      [dataset_path, "models/titanic_model.pt"] := by
  by_cases h : rank = 0 <;>
    refine ⟨?_, ?_, ?_, ?_⟩ <;>
    simp [init_process_run, init_process_effects, envWrites, fileReads,
      run1_trace, run2_trace, dataset_path, h]

/-- Claim C5 counterexample: at `size = 3` the Part-1 launcher loop does not
spawn 3 processes: `batch.chunk(3)` of the 4-row batch yields only 2
chunks, so `batch_chunks[2]` raises `IndexError` inside the loop. -/
theorem part1_launcher_indexerror :
    part1_spawn 3 example_batch = Except.error "IndexError" := by rfl

/-- Claim C5 (amended): for every world size for which `batch.chunk(size)`
yields at least `size` chunks of the example batch — that is, sizes 1, 2
and 4 — the Part-1 launcher spawns exactly `size` processes, one per rank
in 0..size-1, rank `r` receiving exactly `batch_chunks[r]`, and joins them
all; the Part-2 launcher spawns and joins exactly `m` processes for every
`m`. -/
theorem launcher_spawn_join (size : ℕ) (h : size = 1 ∨ size = 2 ∨ size = 4) :
    part1_spawn size example_batch =
      Except.ok ((List.range size).map (fun r =>
        (r, (batch_chunks size example_batch).getD r []))) ∧
    part1_joined size example_batch = Except.ok (List.range size) ∧
    (∀ m : ℕ, (part2_spawn m).length = m ∧ part2_joined m = part2_spawn m) := by
  refine ⟨?_, ?_, ?_⟩
  · rcases h with h | h | h <;> subst h <;> rfl
  · rcases h with h | h | h <;> subst h <;> rfl
  · intro m
    exact ⟨List.length_range m, rfl⟩

/-- Witness for `launcher_spawn_join` at `size = 2`. -/
theorem launcher_spawn_join_witness :
    ((2 : ℕ) = 1 ∨ (2 : ℕ) = 2 ∨ (2 : ℕ) = 4) ∧
    (part1_spawn 2 example_batch =
      Except.ok ((List.range 2).map (fun r =>
        (r, (batch_chunks 2 example_batch).getD r []))) ∧
     part1_joined 2 example_batch = Except.ok (List.range 2) ∧
     (∀ m : ℕ, (part2_spawn m).length = m ∧ part2_joined m = part2_spawn m)) :=
  ⟨by decide, launcher_spawn_join 2 (by decide)⟩

/-- Claim C6: `init_process` has no exception-handling construct: when `fn`
raises, the exception propagates unchanged to the caller and
`dist.destroy_process_group()` is never executed. -/
theorem init_process_no_recovery (rank size : ℕ) (t : List Effect)
    (e : String) (h : Effect.destroyProcessGroup ∉ t) :
    (init_process_run rank size (t, some e)).2 = some e ∧
    Effect.destroyProcessGroup ∉ (init_process_run rank size (t, some e)).1 := by
  refine ⟨rfl, ?_⟩
  simp [init_process_run, init_process_effects]
  exact h

/-- Witness for `init_process_no_recovery` with an `fn` that raises
immediately on rank 0 of a 4-process group. -/
theorem init_process_no_recovery_witness :
    Effect.destroyProcessGroup ∉ ([] : List Effect) ∧
    ((init_process_run 0 4 ([], some "RuntimeError")).2 =
       some "RuntimeError" ∧
     Effect.destroyProcessGroup ∉
       (init_process_run 0 4 ([], some "RuntimeError")).1) :=
  ⟨by decide, init_process_no_recovery 0 4 [] "RuntimeError" (by decide)⟩

/-- Claim C7: for every size in 1, 2, 4 the Part-1 partition of the 4-row
example batch is lossless and order-preserving: `batch.chunk(size)` yields
exactly `size` chunks of `4 / size` rows each, and concatenating them in
order reconstructs the original batch exactly. -/
theorem chunk_partition_lossless (size : ℕ)
    (h : size = 1 ∨ size = 2 ∨ size = 4) :
    (tchunk size example_batch).length = size ∧
    (tchunk size example_batch).map List.length =
      List.replicate size (4 / size) ∧
    tcat (tchunk size example_batch) = example_batch := by
  rcases h with h | h | h <;> subst h <;> exact ⟨rfl, rfl, rfl⟩

/-- Witness for `chunk_partition_lossless` at `size = 4`. -/
theorem chunk_partition_lossless_witness :
    ((4 : ℕ) = 1 ∨ (4 : ℕ) = 2 ∨ (4 : ℕ) = 4) ∧
    ((tchunk 4 example_batch).length = 4 ∧
     (tchunk 4 example_batch).map List.length =
       List.replicate 4 (4 / 4) ∧
     tcat (tchunk 4 example_batch) = example_batch) :=
  ⟨by decide, chunk_partition_lossless 4 (by decide)⟩

/-- Claim C8 counterexample: the Part-1 flow does not load its model from
disk: the whole rank-0 Part-1 process performs no file read (the model is
`ToyModel()`, constructed from the hard-coded in-repository weights). -/
theorem part1_reads_no_file :
    fileReads (init_process_run 0 4 (run1_trace 0, none)).1 = [] := by rfl

/-- Claim C8 (amended): only the Part-2 flow loads a pre-trained model from
a serialized file on disk (`models/titanic_model.pt`); the Part-1 run reads
no file at all and instead constructs `ToyModel` with the weights
`toy_weight` and `toy_bias` defined in the repository's own code. -/
theorem model_loading_flows (rank : ℕ) :
    Effect.readFile "models/titanic_model.pt" ∈ run2_trace rank ∧
    fileReads (run1_trace rank) = [] ∧
    toyModel_forward =
      (fun x => (linear_forward toy_weight toy_bias x).map relu) := by
  refine ⟨?_, ?_, rfl⟩
  · simp [run2_trace]
  · by_cases h : rank = 0 <;> simp [run1_trace, fileReads, h]

/-- Claim C9: in both flows only rank 0 prints a result: every rank other
than 0 participates in the collective (sends its attribution to the gather,
or contributes to the reduce) and prints nothing. -/
theorem only_rank_zero_prints (attrRow : List ℚ → List ℚ)
    (size : ℕ) (batch : List (List ℚ)) (attrOf : ℕ → ℚ) (N rank : ℕ)
    (h : rank ≠ 0) :
    run1_printed attrRow size batch rank = none ∧
    run1_trace rank = [Effect.gatherSend rank] ∧
    run2_printed attrOf N size rank = none ∧
    printOuts (run2_trace rank) = [] ∧
    Effect.reduceTo 0 ∈ run2_trace rank ∧
    printOuts (run1_trace 0) = ["combined_attr"] ∧
    printOuts (run2_trace 0) = ["Average Attributions"] := by
  refine ⟨?_, ?_, ?_, ?_, ?_, rfl, rfl⟩ <;>
    simp [run1_printed, run1_trace, run2_printed, run2_trace, printOuts, h]

/-- Witness for `only_rank_zero_prints` at rank 1 of a 4-process group. -/
theorem only_rank_zero_prints_witness :
    (1 : ℕ) ≠ 0 ∧
    (run1_printed (fun r => r) 4 example_batch 1 = none ∧
     run1_trace 1 = [Effect.gatherSend 1] ∧
     run2_printed (fun i => (i : ℚ)) 5 4 1 = none ∧
     printOuts (run2_trace 1) = [] ∧
     Effect.reduceTo 0 ∈ run2_trace 1 ∧
     printOuts (run1_trace 0) = ["combined_attr"] ∧
     printOuts (run2_trace 0) = ["Average Attributions"]) :=
  ⟨by decide,
   only_rank_zero_prints (fun r => r) 4 example_batch (fun i => (i : ℚ)) 5 1
     (by decide)⟩

/-- Claim C10: `ToyModel.forward` computes `ReLU(W x + b)` with `W` the
all-ones 4x3 matrix and `b = (-10, 1, 1, 1)`: the output at index 0 (the
Part-1 attribution target) is `max 0 (x1 + x2 + x3 - 10)`, it is 0 whenever
the coordinates sum to at most 10, and it stays 0 for every scaling `a * x`
with `0 ≤ a ≤ 1` of such a row. -/
theorem toyModel_output0 (x1 x2 x3 : ℚ) :
    (toyModel_forward [x1, x2, x3]).head? =
      some (max 0 (x1 + x2 + x3 - 10)) ∧
    (x1 + x2 + x3 ≤ 10 → (toyModel_forward [x1, x2, x3]).head? = some 0) ∧
    (∀ a : ℚ, 0 ≤ a → a ≤ 1 → x1 + x2 + x3 ≤ 10 →
      (toyModel_forward [a * x1, a * x2, a * x3]).head? = some 0) := by
  have key : ∀ y1 y2 y3 : ℚ, (toyModel_forward [y1, y2, y3]).head? =
      some (max 0 (y1 + y2 + y3 - 10)) := by
    intro y1 y2 y3
    show some (relu (dotL [1, 1, 1] [y1, y2, y3] + (-10))) = _
    simp only [dotL, relu, List.zipWith, List.sum_cons, List.sum_nil]
    congr 1
    ring
  refine ⟨key x1 x2 x3, ?_, ?_⟩
  · intro hsum
    rw [key x1 x2 x3, max_eq_left (by linarith)]
  · intro a ha0 ha1 hsum
    rw [key (a * x1) (a * x2) (a * x3)]
    have hscaled : a * x1 + a * x2 + a * x3 ≤ 10 := by
      have hfac : a * x1 + a * x2 + a * x3 = a * (x1 + x2 + x3) := by ring
      rw [hfac]
      rcases le_total 0 (x1 + x2 + x3) with hpos | hneg
      · calc a * (x1 + x2 + x3) ≤ 1 * (x1 + x2 + x3) :=
              mul_le_mul_of_nonneg_right ha1 hpos
          _ ≤ 10 := by linarith
      · calc a * (x1 + x2 + x3) ≤ 0 :=
              mul_nonpos_of_nonneg_of_nonpos ha0 hneg
          _ ≤ 10 := by linarith
    rw [max_eq_left (by linarith)]

/-- Witness for `toyModel_output0` at the row `(1, 2, 3)` and scaling
factor `1/2`. -/
theorem toyModel_output0_witness :
    ((1 : ℚ) + 2 + 3 ≤ 10) ∧
    (0 ≤ (1 : ℚ) / 2) ∧ ((1 : ℚ) / 2 ≤ 1) ∧
    (toyModel_forward [(1 : ℚ), 2, 3]).head? = some 0 ∧
    (toyModel_forward [(1 : ℚ) / 2 * 1, (1 : ℚ) / 2 * 2,
      (1 : ℚ) / 2 * 3]).head? = some 0 :=
  ⟨by norm_num, by norm_num, by norm_num,
   (toyModel_output0 1 2 3).2.1 (by norm_num),
   (toyModel_output0 1 2 3).2.2 (1 / 2) (by norm_num) (by norm_num)
     (by norm_num)⟩
